import Mathlib

/-!
# Verification of the recovery-dashboard metric logic

Shallow embedding of the SQL/pandas metric computations of the
recovery-dashboard repository, together with theorems checking the
specification's claims about them.

The queries all operate on rows of `merchant_portal_export.chargeback_split_summary`
joined with `restaurant_aggregate_metrics.slug_am_mapping`; a row of that join is
modelled by `CsRow`.  Dollar amounts are modelled by `ℚ` (the warehouse's exact
NUMERIC arithmetic), calendar months by `Int` (a month index), and SQL `NULL`
for a nullable column by `Option`.
-/

/-! ## SQL expression helpers -/

/-- Boolean test that `n` is a prefix of the second list (character comparison). -/
def startsB : List Char → List Char → Bool
  | [], _ => true
  | _ :: _, [] => false
  | a :: as, b :: bs => a == b && startsB as bs

/-- Boolean test that `n` occurs as a contiguous substring of the second list;
models SQL `LIKE '%n%'` for a pattern with no wildcards inside. -/
def likeContains (n : List Char) : List Char → Bool
  | [] => startsB n []
  | b :: t => startsB n (b :: t) || likeContains n t

/-- The recurring SQL test `UPPER(COALESCE(error_category, '')) LIKE '%INACCURATE%'`:
case-insensitive substring match of "INACCURATE" against the (nullable) category. -/
def like_inaccurate (ec : Option String) : Bool :=
  likeContains "INACCURATE".data ((ec.getD "").data.map Char.toUpper)

/-- The recurring SQL test `external_status IN ('ACCEPTED', 'DENIED')`. -/
def status_settled (s : String) : Bool :=
  s == "ACCEPTED" || s == "DENIED"

/-- `COALESCE(x, 0)` for a nullable numeric column. -/
def coalesce0 (x : Option ℚ) : ℚ := x.getD 0

/-- Rounding half away from zero to an integer, the semantics of the
warehouse's `ROUND` on exact numerics. -/
def round_half_away (x : ℚ) : ℤ :=
  if 0 ≤ x then ⌊x + 1 / 2⌋ else -⌊-x + 1 / 2⌋

/-- `ROUND(x, 2)`: round to two decimal places, half away from zero. -/
def round2 (x : ℚ) : ℚ := (round_half_away (x * 100) : ℚ) / 100

/-! ## Data model

One row of `chargeback_split_summary cs JOIN slug_am_mapping sm ON cs.slug = sm.slug`.
Only the columns the verified queries read are modelled. -/

structure CsRow where
  chain : String
  platform : String
  slug : String
  b_name : String
  month : Int
  external_status : String
  error_category : Option String
  enabled_won_disputes : Option ℚ
  enabled_customer_refunds : Option ℚ
  loop_raised : Bool

/-! ## Win-rate calculator (`recovery_dashboard_v2.get_overall_recovery`) -/

/-- The `won_all` CTE of `get_overall_recovery`:
`SUM(COALESCE(cs.enabled_won_disputes, 0))` over ALL rows of the batch,
with no category restriction. -/
def total_won_all (rows : List CsRow) : ℚ :=
  (rows.map (fun r => coalesce0 r.enabled_won_disputes)).sum

/-- The `total_settled` column of the `inaccurate_metrics` CTE of
`get_overall_recovery`: the batch is first restricted by
`WHERE UPPER(COALESCE(error_category,'')) LIKE '%INACCURATE%'`, then
`SUM(CASE WHEN external_status IN ('ACCEPTED','DENIED') THEN
COALESCE(enabled_customer_refunds, 0) ELSE 0 END)`. -/
def total_settled (rows : List CsRow) : ℚ :=
  ((rows.filter (fun r => like_inaccurate r.error_category)).map
    (fun r => if status_settled r.external_status
              then coalesce0 r.enabled_customer_refunds else 0)).sum

/-- The Python win-rate computed from the query result
(`recovery_dashboard_v2.py` lines 250-253):
`round(100.0 * total_won / total_settled, 2)` when `total_settled > 0`, else `0`. -/
def win_rate (rows : List CsRow) : ℚ :=
  if 0 < total_settled rows
  then round2 (100 * total_won_all rows / total_settled rows)
  else 0

/-! ## Reconciliation-check formulas (`reconciliation_check.py`) -/

/-- Per-row `won_amount` of the `monthly_data` CTE of the overall query:
`COALESCE(cs.enabled_won_disputes, 0)`. -/
def won_amount (r : CsRow) : ℚ := coalesce0 r.enabled_won_disputes

/-- Per-row `settled_amount` of the `monthly_data` CTE and of `formula_query`:
`CASE WHEN external_status IN ('ACCEPTED','DENIED') AND
UPPER(COALESCE(error_category,'')) LIKE '%INACCURATE%'
THEN COALESCE(enabled_customer_refunds, 0) ELSE 0 END`. -/
def settled_amount (r : CsRow) : ℚ :=
  if status_settled r.external_status && like_inaccurate r.error_category
  then coalesce0 r.enabled_customer_refunds else 0

/-- `total_won_all_categories` of `formula_query` (`reconciliation_check.py`
check 3): `SUM(COALESCE(enabled_won_disputes, 0))` over the whole batch. -/
def total_won_all_categories (rows : List CsRow) : ℚ :=
  (rows.map won_amount).sum

/-- `settled_inaccurate_only` of `formula_query`: the sum of the per-row
`settled_amount` CASE expression. -/
def settled_inaccurate_only (rows : List CsRow) : ℚ :=
  (rows.map settled_amount).sum

/-- `correct_win_rate` of `formula_query`:
`ROUND(SAFE_DIVIDE(total_won_all_categories, NULLIF(settled_inaccurate_only, 0)) * 100, 2)`.
`NULLIF(s, 0)` is NULL when `s = 0`, and `SAFE_DIVIDE` of or by NULL is NULL,
so the result is NULL exactly when the denominator is zero. -/
def correct_win_rate (rows : List CsRow) : Option ℚ :=
  if settled_inaccurate_only rows = 0 then none
  else some (round2 (100 * total_won_all_categories rows / settled_inaccurate_only rows))

/-! ## Platform breakdown (`get_platform_breakdown.py`) -/

/-- Per-row `settled_amount` of `get_platform_breakdown`'s `monthly_data` CTE:
`CASE WHEN external_status IN ('ACCEPTED','DENIED') THEN
COALESCE(enabled_customer_refunds, 0) ELSE 0 END` — note: no category test here. -/
def pb_settled_amount (r : CsRow) : ℚ :=
  if status_settled r.external_status then coalesce0 r.enabled_customer_refunds else 0

/-- `total_recovered` of `get_platform_breakdown`: `SUM(won_amount)` over the group. -/
def pb_total_recovered (rows : List CsRow) : ℚ :=
  (rows.map (fun r => coalesce0 r.enabled_won_disputes)).sum

/-- `total_settled` of `get_platform_breakdown`: `SUM(settled_amount)` over the group. -/
def pb_total_settled (rows : List CsRow) : ℚ :=
  (rows.map pb_settled_amount).sum

/-- `win_rate` of `get_platform_breakdown`:
`ROUND(SAFE_DIVIDE(SUM(won_amount), NULLIF(SUM(settled_amount), 0)) * 100, 2)`:
NULL (no value) when the settled sum is zero, otherwise the rounded percentage. -/
def pb_win_rate (rows : List CsRow) : Option ℚ :=
  if pb_total_settled rows = 0 then none
  else some (round2 (100 * pb_total_recovered rows / pb_total_settled rows))

/-! ## Evaluation helpers for concrete batches -/

theorem like_inac_true : like_inaccurate (some "INACCURATE") = true := by decide

theorem like_other_false : like_inaccurate (some "OTHER") = false := by decide

theorem status_acc : status_settled "ACCEPTED" = true := by decide

theorem status_den : status_settled "DENIED" = true := by decide

theorem status_prog : status_settled "IN_PROGRESS" = false := by decide

/-- Evaluate `round2` through a known integer floor value. -/
theorem round2_of_floor (x : ℚ) (hx : 0 ≤ x * 100) (n : ℤ)
    (hn : ⌊x * 100 + 1 / 2⌋ = n) : round2 x = (n : ℚ) / 100 := by
  rw [round2, round_half_away, if_pos hx, hn]

/-! ## Claim C1: the two-tier win-rate formula -/

/-- The batch of the claim's concrete scenario: `won=100` (category OTHER),
`won=50` (INACCURATE, ACCEPTED, refund 200), `won=0` (INACCURATE, DENIED, refund 100). -/
def c1_example : List CsRow :=
  [⟨"A", "Doordash", "s1", "L1", 0, "IN_PROGRESS", some "OTHER", some 100, some 0, true⟩,
   ⟨"A", "Doordash", "s2", "L2", 0, "ACCEPTED", some "INACCURATE", some 50, some 200, true⟩,
   ⟨"A", "Doordash", "s3", "L3", 0, "DENIED", some "INACCURATE", some 0, some 100, true⟩]

/-- A one-record batch (won 1, settled 3) on which the code's 2-decimal
rounding of the win rate is visible. -/
def c1_round_batch : List CsRow :=
  [⟨"A", "Doordash", "s1", "L1", 0, "ACCEPTED", some "INACCURATE", some 1, some 3, true⟩]

theorem c1_example_won : total_won_all c1_example = 150 := by
  simp [c1_example, total_won_all, coalesce0]
  norm_num

theorem c1_example_settled : total_settled c1_example = 300 := by
  simp [c1_example, total_settled, like_inac_true, like_other_false,
    status_acc, status_den, coalesce0]
  norm_num

theorem c1_example_rate : win_rate c1_example = 50 := by
  rw [win_rate, if_pos (by rw [c1_example_settled]; norm_num),
    c1_example_won, c1_example_settled,
    round2_of_floor _ (by norm_num) 5000 (by norm_num [Int.floor_eq_iff])]
  norm_num

/-- Helper: pushing a per-element CASE through a WHERE filter is the same as
filtering on the conjunction and summing the plain column. -/
theorem sum_filter_ite {α : Type} (p q : α → Bool) (f : α → ℚ) (l : List α) :
    ((l.filter p).map (fun a => if q a then f a else 0)).sum
      = ((l.filter (fun a => q a && p a)).map f).sum := by
  induction l with
  | nil => rfl
  | cons a l ih =>
    cases hp : p a <;> cases hq : q a <;>
      simp [List.filter_cons, hp, hq, ih]

/-- C1 (counterexample): the code does NOT return exactly `100 * won / settled`;
it returns that ratio rounded to 2 decimals (`round(..., 2)` in
`recovery_dashboard_v2.py` line 251, `ROUND(..., 2)` in `reconciliation_check.py`
line 245).  On a batch with won 1 and settled 3 the returned win rate is 33.33,
not 100/3. -/
theorem C1_counterexample :
    0 < total_settled c1_round_batch ∧
    win_rate c1_round_batch ≠ 100 * total_won_all c1_round_batch / total_settled c1_round_batch := by
  have hw : total_won_all c1_round_batch = 1 := by
    simp [c1_round_batch, total_won_all, coalesce0]
  have hs : total_settled c1_round_batch = 3 := by
    simp [c1_round_batch, total_settled, like_inac_true, status_acc, coalesce0]
  have hr : win_rate c1_round_batch = 3333 / 100 := by
    rw [win_rate, if_pos (by rw [hs]; norm_num), hw, hs,
      round2_of_floor _ (by norm_num) 3333 (by norm_num [Int.floor_eq_iff])]
    norm_num
  refine ⟨by rw [hs]; norm_num, ?_⟩
  rw [hr, hw, hs]
  norm_num

/-- C1 (amended): `won` is `SUM(won_amount)` over ALL records regardless of
`error_category` (unchanged under any rewriting of the category column, and
identical to `formula_query`'s all-category numerator); `settled` is
`SUM(refund_amount)` over exactly the records with `external_status` in
ACCEPTED/DENIED whose category contains "INACCURATE" case-insensitively; and
`win_rate` is `100 * won / settled` ROUNDED TO 2 DECIMALS when `settled > 0`.
The claim's batch yields won 150, settled 300, win rate 50. -/
theorem C1_amended :
    (∀ rows : List CsRow,
        total_won_all rows = total_won_all_categories rows
        ∧ (∀ g : CsRow → Option String,
             total_won_all (rows.map (fun r => { r with error_category := g r }))
               = total_won_all rows)
        ∧ total_settled rows
            = ((rows.filter (fun r =>
                  status_settled r.external_status && like_inaccurate r.error_category)).map
                (fun r => coalesce0 r.enabled_customer_refunds)).sum
        ∧ (0 < total_settled rows →
             win_rate rows = round2 (100 * total_won_all rows / total_settled rows)))
    ∧ (total_won_all c1_example = 150
        ∧ total_settled c1_example = 300
        ∧ win_rate c1_example = 50) := by
  refine ⟨fun rows => ⟨rfl, fun g => ?_, ?_, fun h => ?_⟩,
    c1_example_won, c1_example_settled, c1_example_rate⟩
  · simp only [total_won_all, List.map_map]
    rfl
  · rw [total_settled]
    exact sum_filter_ite (fun r => like_inaccurate r.error_category)
      (fun r => status_settled r.external_status)
      (fun r => coalesce0 r.enabled_customer_refunds) rows
  · rw [win_rate, if_pos h]

/-- Witness for `C1_amended`: its one hypothesis (`settled > 0`) discharged on
the claim's concrete batch. -/
theorem C1_amended_witness :
    win_rate c1_example = round2 (100 * total_won_all c1_example / total_settled c1_example) :=
  (C1_amended.1 c1_example).2.2.2 (by rw [c1_example_settled]; norm_num)

/-! ## Claim C2: aggregation additivity

The reconciliation check (`reconciliation_check.py` check 1) compares an
overall total against the sum of per-group totals of a breakdown.  A grouping
dimension is modelled as a key function on rows, so the groups partition the
batch with no overlap by construction. -/

/-- `total_won` of the overall query: sum of the per-row `won_amount`. -/
def overall_total_won (rows : List CsRow) : ℚ := (rows.map won_amount).sum

/-- `total_settled` of the overall query: sum of the per-row `settled_amount`. -/
def overall_total_settled (rows : List CsRow) : ℚ := (rows.map settled_amount).sum

/-- Per-group `won` of a breakdown grouped by key `K` (platform, segment, ...). -/
def group_won (K : CsRow → String) (rows : List CsRow) (k : String) : ℚ :=
  ((rows.filter (fun r => K r == k)).map won_amount).sum

/-- Per-group `settled` of a breakdown grouped by key `K`. -/
def group_settled (K : CsRow → String) (rows : List CsRow) (k : String) : ℚ :=
  ((rows.filter (fun r => K r == k)).map settled_amount).sum

/-- Summing any per-row quantity fiberwise over the distinct values of a
grouping key recovers the ungrouped sum. -/
theorem sum_over_groups {α : Type} (K : α → String) (f : α → ℚ) (l : List α) :
    ∑ k ∈ (l.map K).toFinset, ((l.filter (fun r => K r == k)).map f).sum
      = (l.map f).sum := by
  induction l with
  | nil => simp
  | cons a l ih =>
    have hsplit : ∀ k : String, (((a :: l).filter (fun r => K r == k)).map f).sum
        = (if K a = k then f a else 0) + ((l.filter (fun r => K r == k)).map f).sum := by
      intro k
      by_cases h : K a = k
      · simp [List.filter_cons, h]
      · simp [List.filter_cons, h]
    have hsum1 : ∑ k ∈ insert (K a) (l.map K).toFinset, (if K a = k then f a else 0) = f a := by
      rw [Finset.sum_ite_eq (insert (K a) (l.map K).toFinset) (K a) (fun _ => f a)]
      exact if_pos (Finset.mem_insert_self _ _)
    have hsum2 : ∑ k ∈ insert (K a) (l.map K).toFinset,
          ((l.filter (fun r => K r == k)).map f).sum
        = ∑ k ∈ (l.map K).toFinset, ((l.filter (fun r => K r == k)).map f).sum := by
      by_cases hmem : K a ∈ (l.map K).toFinset
      · rw [Finset.insert_eq_self.mpr hmem]
      · rw [Finset.sum_insert hmem]
        have hnil : l.filter (fun r => K r == K a) = [] := by
          rw [List.filter_eq_nil_iff]
          intro r hr h
          exact hmem (List.mem_toFinset.mpr (List.mem_map.mpr ⟨r, hr, by simpa using h⟩))
        rw [hnil]
        simp
    rw [List.map_cons, List.toFinset_cons,
      Finset.sum_congr rfl (fun k _ => hsplit k), Finset.sum_add_distrib,
      hsum1, hsum2, ih, List.map_cons, List.sum_cons]

/-- C2: for any grouping key whose groups partition the batch (platform,
segment, ...), the per-group `won` amounts sum exactly to the overall `won`,
and likewise for `settled` — with zero tolerance. -/
theorem C2_additivity :
    ∀ (K : CsRow → String) (rows : List CsRow),
      (∑ k ∈ (rows.map K).toFinset, group_won K rows k) = overall_total_won rows
      ∧ (∑ k ∈ (rows.map K).toFinset, group_settled K rows k) = overall_total_settled rows := by
  intro K rows
  exact ⟨sum_over_groups K won_amount rows, sum_over_groups K settled_amount rows⟩

/-! ## Claim C3: win-rate behaviour on a zero denominator -/

/-- A batch with `won = 75` and settled sum `0`: the single dispute is
IN_PROGRESS, so no refund qualifies as settled anywhere. -/
def c3_batch : List CsRow :=
  [⟨"A", "Doordash", "s1", "L1", 0, "IN_PROGRESS", some "INACCURATE", some 75, some 100, true⟩]

theorem c3_batch_settled : total_settled c3_batch = 0 := by
  simp [c3_batch, total_settled, like_inac_true, status_prog]

theorem c3_batch_pb_settled : pb_total_settled c3_batch = 0 := by
  simp [c3_batch, pb_total_settled, pb_settled_amount, status_prog]

/-- C3 (counterexample): on a batch with `won = 75` and `settled = 0`,
`get_platform_breakdown`'s `win_rate` column
(`ROUND(SAFE_DIVIDE(SUM(won), NULLIF(SUM(settled), 0)) * 100, 2)`) is NULL —
rendered NaN by pandas — and not the value 0 the claim requires. -/
theorem C3_counterexample :
    pb_total_recovered c3_batch = 75
    ∧ pb_total_settled c3_batch = 0
    ∧ pb_win_rate c3_batch = none
    ∧ pb_win_rate c3_batch ≠ some 0 := by
  refine ⟨?_, c3_batch_pb_settled, ?_, ?_⟩
  · simp [c3_batch, pb_total_recovered, coalesce0]
  · rw [pb_win_rate, if_pos c3_batch_pb_settled]
  · rw [pb_win_rate, if_pos c3_batch_pb_settled]
    exact fun h => Option.noConfusion h

/-- C3 (amended): no path divides by zero or produces an infinity — both
win-rate computations are total functions into `ℚ` resp. `Option ℚ`.  In
`get_overall_recovery` the Python guard returns exactly 0 whenever
`settled = 0`; but in `get_platform_breakdown` a group with a zero settled
sum gets a NULL (absent) win rate, not 0, and a non-zero settled sum gets the
rounded percentage. -/
theorem C3_amended :
    (∀ rows : List CsRow,
        (total_settled rows = 0 → win_rate rows = 0)
        ∧ (pb_win_rate rows = none ↔ pb_total_settled rows = 0)
        ∧ (pb_total_settled rows ≠ 0 →
             pb_win_rate rows
               = some (round2 (100 * pb_total_recovered rows / pb_total_settled rows))))
    ∧ (win_rate c3_batch = 0 ∧ pb_win_rate c3_batch = none) := by
  refine ⟨fun rows => ⟨fun h => ?_, ?_, fun h => ?_⟩, ?_, ?_⟩
  · simp [win_rate, h]
  · by_cases h : pb_total_settled rows = 0 <;> simp [pb_win_rate, h]
  · rw [pb_win_rate, if_neg h]
  · simp [win_rate, c3_batch_settled]
  · rw [pb_win_rate, if_pos c3_batch_pb_settled]

/-- Witness for `C3_amended`: its hypotheses discharged on the concrete batch
with `won = 75`, `settled = 0`. -/
theorem C3_amended_witness : win_rate c3_batch = 0 :=
  (C3_amended.1 c3_batch).1 c3_batch_settled

/-! ## Segmentation engine

The `chain_segments` / `segmented_chains` CTEs (`get_chains_movement.py`,
`reconciliation_check.py`, `weekly_scorecard.py` `ranked_chains`) rank chains
by location count with `ROW_NUMBER() OVER (ORDER BY location_count DESC)` and
map the rank to a segment through a fixed CASE. -/

/-- One output row of the segmentation CTE. -/
structure SegRow where
  chain : String
  location_count : Nat
  rank_by_locations : Nat
  segment : String

/-- The CASE mapping `rank_by_locations` to a segment; every copy of the CTE
uses the same cutoffs 15/40/70/132. -/
def segment_of_rank (r : Nat) : String :=
  if r ≤ 15 then "P0"
  else if r ≤ 40 then "P1"
  else if r ≤ 70 then "P2"
  else if r ≤ 132 then "P3"
  else "P4"

/-- The ordering of `ORDER BY location_count DESC`: larger counts first.  The
stable sort leaves ties in input order, matching a stable but otherwise
unspecified database order. -/
def rank_order (a b : String × Nat) : Prop := b.2 ≤ a.2

instance : DecidableRel rank_order := fun a b => Nat.decLe b.2 a.2

/-- `compute_segments`: sort the census (chain, location_count) rows by count
descending, attach `ROW_NUMBER` ranks 1, 2, ... in that order, and the CASE
segment of each rank. -/
def compute_segments (census : List (String × Nat)) : List SegRow :=
  ((List.range (List.insertionSort rank_order census).length).zip
    (List.insertionSort rank_order census)).map
    (fun t => ⟨t.2.1, t.2.2, t.1 + 1, segment_of_rank (t.1 + 1)⟩)

theorem compute_segments_map_rank (census : List (String × Nat)) :
    (compute_segments census).map (fun row => row.rank_by_locations)
      = (List.range census.length).map (fun i => i + 1) := by
  unfold compute_segments
  rw [List.map_map]
  rw [show ((fun row : SegRow => row.rank_by_locations) ∘
        fun t : Nat × (String × Nat) =>
          (⟨t.2.1, t.2.2, t.1 + 1, segment_of_rank (t.1 + 1)⟩ : SegRow))
      = (fun i : Nat => i + 1) ∘ Prod.fst from rfl]
  rw [← List.map_map]
  rw [List.map_fst_zip _ _ (by simp)]
  rw [(List.perm_insertionSort rank_order census).length_eq]

theorem compute_segments_map_chain (census : List (String × Nat)) :
    (compute_segments census).map (fun row => row.chain)
      = (List.insertionSort rank_order census).map Prod.fst := by
  unfold compute_segments
  rw [List.map_map]
  rw [show ((fun row : SegRow => row.chain) ∘
        fun t : Nat × (String × Nat) =>
          (⟨t.2.1, t.2.2, t.1 + 1, segment_of_rank (t.1 + 1)⟩ : SegRow))
      = Prod.fst ∘ Prod.snd from rfl]
  rw [← List.map_map]
  rw [List.map_snd_zip _ _ (by simp)]

theorem compute_segments_segment (census : List (String × Nat)) :
    ∀ row ∈ compute_segments census, row.segment = segment_of_rank row.rank_by_locations := by
  intro row hrow
  unfold compute_segments at hrow
  rcases List.mem_map.mp hrow with ⟨t, _, rfl⟩
  rfl

/-- C4: on a non-empty census with distinct chains, `compute_segments` gives
every chain exactly one output row, the ranks are exactly 1..N in order, and
the segment of each row follows the fixed rank cutoffs P0 ≤ 15 < P1 ≤ 40 <
P2 ≤ 70 < P3 ≤ 132 < P4. -/
theorem C4_segmentation :
    ∀ census : List (String × Nat), census ≠ [] → (census.map Prod.fst).Nodup →
      ((compute_segments census).map (fun row => row.rank_by_locations)
          = (List.range census.length).map (fun i => i + 1))
      ∧ (∀ c ∈ census.map Prod.fst,
           ((compute_segments census).map (fun row => row.chain)).count c = 1)
      ∧ (∀ row ∈ compute_segments census,
           (row.rank_by_locations ≤ 15 → row.segment = "P0")
           ∧ (16 ≤ row.rank_by_locations → row.rank_by_locations ≤ 40 → row.segment = "P1")
           ∧ (41 ≤ row.rank_by_locations → row.rank_by_locations ≤ 70 → row.segment = "P2")
           ∧ (71 ≤ row.rank_by_locations → row.rank_by_locations ≤ 132 → row.segment = "P3")
           ∧ (132 < row.rank_by_locations → row.segment = "P4")) := by
  refine fun census _hne hnd => ⟨compute_segments_map_rank census, ?_, ?_⟩
  · intro c hc
    rw [compute_segments_map_chain]
    have hperm : List.Perm ((List.insertionSort rank_order census).map Prod.fst)
        (census.map Prod.fst) :=
      (List.perm_insertionSort rank_order census).map Prod.fst
    rw [hperm.count_eq]
    exact List.count_eq_one_of_mem hnd hc
  · intro row hrow
    have hseg := compute_segments_segment census row hrow
    refine ⟨fun h1 => ?_, fun h1 h2 => ?_, fun h1 h2 => ?_, fun h1 h2 => ?_, fun h1 => ?_⟩
    · rw [hseg]
      simp only [segment_of_rank]
      rw [if_pos h1]
    · rw [hseg]
      simp only [segment_of_rank]
      rw [if_neg (by omega), if_pos h2]
    · rw [hseg]
      simp only [segment_of_rank]
      rw [if_neg (by omega), if_neg (by omega), if_pos h2]
    · rw [hseg]
      simp only [segment_of_rank]
      rw [if_neg (by omega), if_neg (by omega), if_neg (by omega), if_pos h2]
    · rw [hseg]
      simp only [segment_of_rank]
      rw [if_neg (by omega), if_neg (by omega), if_neg (by omega), if_neg (by omega)]

/-- Witness for `C4_segmentation`: its hypotheses discharged on the two-chain
census [("A", 3), ("B", 1)]. -/
theorem C4_witness :
    (compute_segments [("A", 3), ("B", 1)]).map (fun row => row.rank_by_locations)
      = (List.range 2).map (fun i => i + 1) :=
  (C4_segmentation [("A", 3), ("B", 1)] (by decide) (by decide)).1

/-! ## Claim C8: the five-chain census scenario -/

/-- The claim's census: location counts [50, 40, 40, 10, 1]. -/
def c8_census : List (String × Nat) := [("A", 50), ("B", 40), ("C", 40), ("D", 10), ("E", 1)]

/-- C8 (counterexample): the claimed segments [P0, P0, P0, P3, P4] do not
match the code — every rank up to 15 is P0, so ranks 4 and 5 are P0 too. -/
theorem C8_counterexample :
    (compute_segments c8_census).map (fun row => row.segment)
      ≠ ["P0", "P0", "P0", "P3", "P4"] := by decide

/-- C8 (amended): the census [50, 40, 40, 10, 1] gets ranks [1, 2, 3, 4, 5]
and segments [P0, P0, P0, P0, P0], since every rank ≤ 15 maps to P0. -/
theorem C8_amended :
    (compute_segments c8_census).map (fun row => row.rank_by_locations) = [1, 2, 3, 4, 5]
    ∧ (compute_segments c8_census).map (fun row => row.segment)
        = ["P0", "P0", "P0", "P0", "P0"] :=
  ⟨by decide, by decide⟩

/-! ## Claim C5: location counting -/

/-- `location_count` of the `chain_segments` ranking CTE in
`get_chains_movement.py` (repeated in `reconciliation_check.py` and in
`weekly_scorecard.get_segment_monthly_data`): per chain,
`COUNT(DISTINCT sm.slug)` over the census rows with a non-empty chain. -/
def slug_location_count (rows : List CsRow) (c : String) : Nat :=
  (((rows.filter (fun r => !(r.chain == "") && r.chain == c)).map
    (fun r => r.slug)).dedup).length

/-- The corrected location count (`weekly_scorecard.get_chain_segmentation`
`chain_sizes` CTE, and the "correct query" of `test_location_count.py`):
per chain, `COUNT(DISTINCT CONCAT(chain, b_name))`. -/
def bname_location_count (rows : List CsRow) (c : String) : Nat :=
  (((rows.filter (fun r => !(r.chain == "") && r.chain == c)).map
    (fun r => r.chain ++ r.b_name)).dedup).length

/-- One physical location (chain "A", b_name "X") listed under two platform
slugs "s1" and "s2". -/
def c5_rows : List CsRow :=
  [⟨"A", "Doordash", "s1", "X", 0, "ACCEPTED", some "INACCURATE", some 0, some 0, true⟩,
   ⟨"A", "UberEats", "s2", "X", 0, "ACCEPTED", some "INACCURATE", some 0, some 0, true⟩]

/-- C5 (code bug): the segmentation-ranking CTEs count a location once per
slug — a location listed under two slugs counts as 2 via
`COUNT(DISTINCT sm.slug)` — while the canonical `(chain, b_name)` count used
by `weekly_scorecard.get_chain_segmentation` and documented as correct by
`test_location_count.py` counts it once. -/
theorem C5_code_bug :
    slug_location_count c5_rows "A" = 2
    ∧ bname_location_count c5_rows "A" = 1
    ∧ slug_location_count c5_rows "A" ≠ bname_location_count c5_rows "A" := by decide

/-! ## Movement detector (`get_chains_movement.py`)

`current_month_chains` / `previous_month_chains` are `SELECT DISTINCT chain`
snapshots, modelled as finite sets of chains.  The `movement` CTE classifies
each chain of their full outer join and the final `WHERE` keeps only
entered/exited rows. -/

/-- The `movement` CTE's CASE: "entered" when the chain is present only in the
current snapshot, "exited" when present only in the previous one, else "stayed". -/
def movement_type (cur prev : Finset String) (c : String) : String :=
  if c ∈ cur ∧ c ∉ prev then "entered"
  else if c ∉ cur ∧ c ∈ prev then "exited"
  else "stayed"

/-- The query output: each chain of the full outer join paired with its
movement type, filtered by `WHERE movement_type IN ('entered', 'exited')`. -/
def chains_movement (cur prev : Finset String) : Finset (String × String) :=
  ((cur ∪ prev).filter
    (fun c => movement_type cur prev c = "entered" ∨ movement_type cur prev c = "exited")).image
    (fun c => (c, movement_type cur prev c))

/-- The chains reported as "entered". -/
def entered_chains (cur prev : Finset String) : Finset String :=
  ((chains_movement cur prev).filter (fun t => t.2 = "entered")).image Prod.fst

/-- The chains reported as "exited". -/
def exited_chains (cur prev : Finset String) : Finset String :=
  ((chains_movement cur prev).filter (fun t => t.2 = "exited")).image Prod.fst

theorem movement_entered_iff (cur prev : Finset String) (c : String) :
    movement_type cur prev c = "entered" ↔ (c ∈ cur ∧ c ∉ prev) := by
  constructor
  · intro h
    by_contra hn
    rw [movement_type, if_neg hn] at h
    by_cases h2 : c ∉ cur ∧ c ∈ prev
    · rw [if_pos h2] at h
      exact absurd h (by decide)
    · rw [if_neg h2] at h
      exact absurd h (by decide)
  · intro h
    rw [movement_type, if_pos h]

theorem movement_exited_iff (cur prev : Finset String) (c : String) :
    movement_type cur prev c = "exited" ↔ (c ∉ cur ∧ c ∈ prev) := by
  constructor
  · intro h
    by_cases h1 : c ∈ cur ∧ c ∉ prev
    · rw [movement_type, if_pos h1] at h
      exact absurd h (by decide)
    · by_cases h2 : c ∉ cur ∧ c ∈ prev
      · exact h2
      · rw [movement_type, if_neg h1, if_neg h2] at h
        exact absurd h (by decide)
  · intro h
    have h1 : ¬(c ∈ cur ∧ c ∉ prev) := fun hx => h.1 hx.1
    rw [movement_type, if_neg h1, if_pos h]

theorem mem_entered_iff (cur prev : Finset String) (c : String) :
    c ∈ entered_chains cur prev ↔ (c ∈ cur ∧ c ∉ prev) := by
  constructor
  · intro hmem
    rcases Finset.mem_image.mp hmem with ⟨t, htf, htc⟩
    rcases Finset.mem_filter.mp htf with ⟨htm, hts⟩
    rcases Finset.mem_image.mp htm with ⟨x, _, hxeq⟩
    subst hxeq
    have hx1 : x = c := htc
    have hx2 : movement_type cur prev x = "entered" := hts
    rw [hx1] at hx2
    exact (movement_entered_iff cur prev c).mp hx2
  · intro h
    have hmt : movement_type cur prev c = "entered" := (movement_entered_iff cur prev c).mpr h
    refine Finset.mem_image.mpr ⟨(c, "entered"), Finset.mem_filter.mpr ⟨?_, rfl⟩, rfl⟩
    refine Finset.mem_image.mpr
      ⟨c, Finset.mem_filter.mpr ⟨Finset.mem_union_left _ h.1, Or.inl hmt⟩, ?_⟩
    rw [hmt]

theorem mem_exited_iff (cur prev : Finset String) (c : String) :
    c ∈ exited_chains cur prev ↔ (c ∉ cur ∧ c ∈ prev) := by
  constructor
  · intro hmem
    rcases Finset.mem_image.mp hmem with ⟨t, htf, htc⟩
    rcases Finset.mem_filter.mp htf with ⟨htm, hts⟩
    rcases Finset.mem_image.mp htm with ⟨x, _, hxeq⟩
    subst hxeq
    have hx1 : x = c := htc
    have hx2 : movement_type cur prev x = "exited" := hts
    rw [hx1] at hx2
    exact (movement_exited_iff cur prev c).mp hx2
  · intro h
    have hmt : movement_type cur prev c = "exited" := (movement_exited_iff cur prev c).mpr h
    refine Finset.mem_image.mpr ⟨(c, "exited"), Finset.mem_filter.mpr ⟨?_, rfl⟩, rfl⟩
    refine Finset.mem_image.mpr
      ⟨c, Finset.mem_filter.mpr ⟨Finset.mem_union_right _ h.2, Or.inr hmt⟩, ?_⟩
    rw [hmt]

theorem entered_eq (cur prev : Finset String) : entered_chains cur prev = cur \ prev := by
  ext c
  rw [Finset.mem_sdiff]
  exact mem_entered_iff cur prev c

theorem exited_eq (cur prev : Finset String) : exited_chains cur prev = prev \ cur := by
  ext c
  rw [Finset.mem_sdiff]
  exact (mem_exited_iff cur prev c).trans and_comm

/-- C7: "entered" is reported exactly for chains in the current snapshot but
not the previous one and "exited" exactly for the converse; "stayed" rows are
filtered from the output; and the entered set of a comparison equals the
exited set of the reversed comparison.  The claim's scenario
Current terms A, B, C vs previous B, C, D gives entered A and exited D. -/
theorem C7_movement :
    (∀ cur prev : Finset String,
        entered_chains cur prev = cur \ prev
        ∧ exited_chains cur prev = prev \ cur
        ∧ (∀ c : String, (c, "stayed") ∉ chains_movement cur prev)
        ∧ entered_chains cur prev = exited_chains prev cur
        ∧ exited_chains cur prev = entered_chains prev cur)
    ∧ entered_chains {"A", "B", "C"} {"B", "C", "D"} = {"A"}
    ∧ exited_chains {"A", "B", "C"} {"B", "C", "D"} = {"D"} := by
  refine ⟨fun cur prev => ⟨entered_eq cur prev, exited_eq cur prev, ?_,
      by rw [entered_eq, exited_eq], by rw [exited_eq, entered_eq]⟩, ?_, ?_⟩
  · intro c hmem
    rcases Finset.mem_image.mp hmem with ⟨x, hxmem, hxeq⟩
    rcases Finset.mem_filter.mp hxmem with ⟨-, hxor⟩
    have hx2 : movement_type cur prev x = "stayed" := congrArg Prod.snd hxeq
    rcases hxor with h | h <;> rw [hx2] at h <;> exact absurd h (by decide)
  · rw [entered_eq]
    decide
  · rw [exited_eq]
    decide

/-- Witness for `C7_movement`: the "stayed"-exclusion applied at a concrete
comparison in which chain "B" stays. -/
theorem C7_witness : ("B", "stayed") ∉ chains_movement {"A", "B"} {"B"} :=
  (C7_movement.1 {"A", "B"} {"B"}).2.2.1 "B"

/-! ## Reconciliation diff and tolerance check (`reconciliation_check.py` 157-169) -/

/-- `dispute_diff`: overall dispute count minus the sum of the breakdown's
per-group counts. -/
def dispute_diff (overall : ℤ) (segs : List ℤ) : ℤ := overall - segs.sum

/-- `won_diff` / `settled_diff`: overall dollar amount minus the sum of the
breakdown's per-group amounts. -/
def amount_diff (overall : ℚ) (segs : List ℚ) : ℚ := overall - segs.sum

/-- The script's pass condition:
`abs(dispute_diff) < 10 and abs(won_diff) < 100 and abs(settled_diff) < 100`. -/
def recon_passed (od : ℤ) (ow os : ℚ) (sd : List ℤ) (sw ss : List ℚ) : Bool :=
  decide (|dispute_diff od sd| < 10)
    && decide (|amount_diff ow sw| < 100)
    && decide (|amount_diff os ss| < 100)

/-- C9 (counterexample): a platform breakdown summing to 1000 disputes against
an independent overall total of 998.  The claim says the check fails (1-unit
tolerance for counts, diff 2), but the script compares `abs(diff) < 10` for
counts, so the check PASSES; the signed dispute diff is -2. -/
theorem C9_counterexample :
    recon_passed 998 0 0 [1000] [0] [0] = true
    ∧ dispute_diff 998 [1000] = -2
    ∧ ¬(|dispute_diff 998 [1000]| ≤ 1) := by
  refine ⟨?_, ?_, ?_⟩
  · simp only [recon_passed, Bool.and_eq_true, decide_eq_true_eq, dispute_diff, amount_diff]
    norm_num
  · simp only [dispute_diff]
    norm_num
  · simp only [dispute_diff]
    norm_num

/-- C9 (amended): the reconciliation check passes exactly when all three
absolute signed differences are strictly below the fixed constants — 10 for
the dispute count and 100 for each dollar amount; the differences are the
signed overall-minus-breakdown values, printed as diagnostics and never
raised as errors.  The 998-vs-1000 scenario therefore passes, with signed
dispute diff -2. -/
theorem C9_amended :
    (∀ (od : ℤ) (ow os : ℚ) (sd : List ℤ) (sw ss : List ℚ),
        recon_passed od ow os sd sw ss = true ↔
          (|dispute_diff od sd| < 10 ∧ |amount_diff ow sw| < 100 ∧ |amount_diff os ss| < 100))
    ∧ recon_passed 998 0 0 [1000] [0] [0] = true
    ∧ dispute_diff 998 [1000] = -2 := by
  refine ⟨fun od ow os sd sw ss => ?_, ?_, ?_⟩
  · simp [recon_passed, Bool.and_eq_true, decide_eq_true_eq, and_assoc]
  · simp only [recon_passed, Bool.and_eq_true, decide_eq_true_eq, dispute_diff, amount_diff]
    norm_num
  · simp only [dispute_diff]
    norm_num

/-! ## Declining-chain detection (`recovery_dashboard_v2.get_chains_requiring_attention`)

The query groups by (chain, platform, month); as the per-entity metrics depend
only on that entity's rows, the CTEs are embedded for one fixed (chain,
platform) group `(c, p)`.  `s12` and `s3` are the 12- and 3-month window start
months. -/

/-- The rows feeding `monthly_performance` for the group `(c, p)`: the WHERE
clause keeps rows of the 12-month window whose category matches "INACCURATE",
and the GROUP BY fixes chain and platform. -/
def attention_rows (rows : List CsRow) (s12 : Int) (c p : String) : List CsRow :=
  rows.filter (fun r =>
    decide (s12 ≤ r.month) && like_inaccurate r.error_category
      && (r.chain == c) && (r.platform == p))

/-- `won` of the `monthly_performance` CTE for month `m`:
`SUM(COALESCE(enabled_won_disputes, 0))` over the month's rows. -/
def month_won (rows : List CsRow) (s12 : Int) (c p : String) (m : Int) : ℚ :=
  (((attention_rows rows s12 c p).filter (fun r => r.month == m)).map
    (fun r => coalesce0 r.enabled_won_disputes)).sum

/-- `settled` of the `monthly_performance` CTE for month `m`: the same
ACCEPTED/DENIED-and-INACCURATE CASE as `settled_amount`, summed over the month. -/
def month_settled (rows : List CsRow) (s12 : Int) (c p : String) (m : Int) : ℚ :=
  (((attention_rows rows s12 c p).filter (fun r => r.month == m)).map settled_amount).sum

/-- The `monthly_performance` CTE for the group `(c, p)`: one row per distinct
month with the summed won/settled amounts, restricted by `HAVING settled > 0`. -/
def monthly_performance (rows : List CsRow) (s12 : Int) (c p : String) :
    List (Int × ℚ × ℚ) :=
  ((((attention_rows rows s12 c p).map (fun r => r.month)).dedup).map
    (fun m => (m, month_won rows s12 c p m, month_settled rows s12 c p m))).filter
    (fun t => decide (0 < t.2.2))

/-- `100.0 * won / NULLIF(settled, 0)`: the per-month win-rate expression. -/
def month_rate (t : Int × ℚ × ℚ) : Option ℚ :=
  if t.2.2 = 0 then none else some (100 * t.2.1 / t.2.2)

/-- SQL `AVG` over a nullable expression: NULL inputs are skipped and the
average of no values is NULL. -/
def avg_sql (xs : List (Option ℚ)) : Option ℚ :=
  if (xs.filterMap id).length = 0 then none
  else some ((xs.filterMap id).sum / ((xs.filterMap id).length : ℚ))

/-- `avg_12m_win_rate` / `avg_3m_win_rate` of the `chain_metrics` CTE:
`AVG(CASE WHEN month >= cutoff THEN 100.0 * won / NULLIF(settled, 0) ELSE NULL END)`. -/
def avg_win_rate (perf : List (Int × ℚ × ℚ)) (cutoff : Int) : Option ℚ :=
  avg_sql (perf.map (fun t => if cutoff ≤ t.1 then month_rate t else none))

/-- `months_of_data` of `chain_metrics`: `COUNT(DISTINCT month)`. -/
def months_of_data (perf : List (Int × ℚ × ℚ)) : Nat :=
  ((perf.map (fun t => t.1)).dedup).length

/-- `total_settled_12m` of `chain_metrics`: `SUM(settled)`. -/
def total_settled_12m (perf : List (Int × ℚ × ℚ)) : ℚ :=
  (perf.map (fun t => t.2.2)).sum

/-- `decline_percentage` of `flagged_chains`:
`100.0 * (avg_12m_win_rate - avg_3m_win_rate) / NULLIF(avg_12m_win_rate, 0)`. -/
def decline_percentage (a12 a3 : ℚ) : Option ℚ :=
  if a12 = 0 then none else some (100 * (a12 - a3) / a12)

/-- Whether the group `(c, p)` reaches the query's final output: the chain of
`HAVING months_of_data >= 3`, the `flagged_chains` WHERE (both averages
positive — a NULL average fails any SQL comparison — and the volume floor
`total_settled_12m > 1000`), and the final `WHERE decline_percentage >= 20`. -/
def is_flagged (rows : List CsRow) (s12 s3 : Int) (c p : String) : Bool :=
  let perf := monthly_performance rows s12 c p
  decide (3 ≤ months_of_data perf)
    && (match avg_win_rate perf s12, avg_win_rate perf s3 with
        | some a12, some a3 =>
            decide (0 < a12) && decide (0 < a3)
              && decide (1000 < total_settled_12m perf)
              && (match decline_percentage a12 a3 with
                  | some d => decide (20 ≤ d)
                  | none => false)
        | _, _ => false)

/-- The Python alert label (`recovery_dashboard_v2.py` 2082-2084): "Critical"
when the displayed (2-decimal-rounded) decline percentage exceeds 30, else
"Warning". -/
def alert_label (d : ℚ) : String :=
  if 30 < round2 d then "Critical" else "Warning"

/-- The flag condition, unfolded to the claim's form. -/
theorem flagged_iff (rows : List CsRow) (s12 s3 : Int) (c p : String) :
    is_flagged rows s12 s3 c p = true ↔
      (3 ≤ months_of_data (monthly_performance rows s12 c p)
       ∧ ∃ a12 a3 : ℚ,
           avg_win_rate (monthly_performance rows s12 c p) s12 = some a12
           ∧ avg_win_rate (monthly_performance rows s12 c p) s3 = some a3
           ∧ 0 < a12 ∧ 0 < a3
           ∧ 1000 < total_settled_12m (monthly_performance rows s12 c p)
           ∧ 20 ≤ (a12 - a3) / a12 * 100) := by
  unfold is_flagged
  cases h12 : avg_win_rate (monthly_performance rows s12 c p) s12 with
  | none => simp [h12]
  | some a12 =>
    cases h3 : avg_win_rate (monthly_performance rows s12 c p) s3 with
    | none => simp [h3]
    | some a3 =>
      by_cases hz : a12 = 0
      · simp [h12, h3, decline_percentage, hz]
      · have hr : 100 * (a12 - a3) / a12 = (a12 - a3) / a12 * 100 := by ring
        simp [h12, h3, decline_percentage, hz, and_assoc, hr]

/-! ## Claim C6: the concrete declining-chain scenario

An entity with 12-month average win rate 60 and 3-month average 40: months
0-2 have per-month rate 200/3 (won 200 of settled 300) and month 3 — the
short window, `s3 = 3` — has rate 40 (won 120 of settled 300), so the
12-month mean is (3 * 200/3 + 40) / 4 = 60. -/

def c6_rows : List CsRow :=
  [⟨"X", "Doordash", "s", "L", 0, "ACCEPTED", some "INACCURATE", some 200, some 300, true⟩,
   ⟨"X", "Doordash", "s", "L", 1, "ACCEPTED", some "INACCURATE", some 200, some 300, true⟩,
   ⟨"X", "Doordash", "s", "L", 2, "ACCEPTED", some "INACCURATE", some 200, some 300, true⟩,
   ⟨"X", "Doordash", "s", "L", 3, "ACCEPTED", some "INACCURATE", some 120, some 300, true⟩]

theorem c6_att : attention_rows c6_rows 0 "X" "Doordash" = c6_rows := by
  simp [attention_rows, c6_rows, like_inac_true]

theorem c6_won0 : month_won c6_rows 0 "X" "Doordash" 0 = 200 := by
  unfold month_won
  rw [c6_att]
  simp [c6_rows, coalesce0]

theorem c6_won1 : month_won c6_rows 0 "X" "Doordash" 1 = 200 := by
  unfold month_won
  rw [c6_att]
  simp [c6_rows, coalesce0]

theorem c6_won2 : month_won c6_rows 0 "X" "Doordash" 2 = 200 := by
  unfold month_won
  rw [c6_att]
  simp [c6_rows, coalesce0]

theorem c6_won3 : month_won c6_rows 0 "X" "Doordash" 3 = 120 := by
  unfold month_won
  rw [c6_att]
  simp [c6_rows, coalesce0]

theorem c6_set0 : month_settled c6_rows 0 "X" "Doordash" 0 = 300 := by
  unfold month_settled
  rw [c6_att]
  simp [c6_rows, settled_amount, status_acc, like_inac_true, coalesce0]

theorem c6_set1 : month_settled c6_rows 0 "X" "Doordash" 1 = 300 := by
  unfold month_settled
  rw [c6_att]
  simp [c6_rows, settled_amount, status_acc, like_inac_true, coalesce0]

theorem c6_set2 : month_settled c6_rows 0 "X" "Doordash" 2 = 300 := by
  unfold month_settled
  rw [c6_att]
  simp [c6_rows, settled_amount, status_acc, like_inac_true, coalesce0]

theorem c6_set3 : month_settled c6_rows 0 "X" "Doordash" 3 = 300 := by
  unfold month_settled
  rw [c6_att]
  simp [c6_rows, settled_amount, status_acc, like_inac_true, coalesce0]

theorem c6_months_list : (c6_rows.map (fun r => r.month)).dedup = [0, 1, 2, 3] := by
  simp [c6_rows]

theorem c6_perf : monthly_performance c6_rows 0 "X" "Doordash"
    = [(0, 200, 300), (1, 200, 300), (2, 200, 300), (3, 120, 300)] := by
  unfold monthly_performance
  rw [c6_att, c6_months_list]
  norm_num [c6_won0, c6_won1, c6_won2, c6_won3, c6_set0, c6_set1, c6_set2, c6_set3]

theorem c6_avg12 : avg_win_rate (monthly_performance c6_rows 0 "X" "Doordash") 0 = some 60 := by
  rw [c6_perf]
  norm_num [avg_win_rate, avg_sql, month_rate, List.filterMap_cons]

theorem c6_avg3 : avg_win_rate (monthly_performance c6_rows 0 "X" "Doordash") 3 = some 40 := by
  rw [c6_perf]
  norm_num [avg_win_rate, avg_sql, month_rate, List.filterMap_cons]

theorem c6_months_count : months_of_data (monthly_performance c6_rows 0 "X" "Doordash") = 4 := by
  rw [c6_perf]
  simp [months_of_data]

theorem c6_total : total_settled_12m (monthly_performance c6_rows 0 "X" "Doordash") = 1200 := by
  rw [c6_perf]
  norm_num [total_settled_12m]

theorem c6_flag : is_flagged c6_rows 0 3 "X" "Doordash" = true := by
  simp only [is_flagged, c6_avg12, c6_avg3]
  norm_num [c6_months_count, c6_total, decline_percentage]

theorem c6_label : alert_label (100 * ((60 : ℚ) - 40) / 60) = "Critical" := by
  unfold alert_label
  rw [round2_of_floor _ (by norm_num) 3333 (by norm_num [Int.floor_eq_iff])]
  rw [if_pos (by norm_num)]

/-- C6: an entity reaches the attention list exactly when it has at least 3
months of (positive-settled) data, both window averages exist and are strictly
positive, its 12-month settled volume exceeds the 1000 floor, and
`(long_avg - short_avg) / long_avg * 100 >= 20`; entities failing any
condition are simply absent (the pipeline is total, with no error path).  The
claim's scenario — 12-month average 60, 3-month average 40, volume 1200 —
is flagged, and its decline of 100*(60-40)/60 = 33.33 is labeled "Critical"
(decline above 30). -/
theorem C6_flagging :
    (∀ (rows : List CsRow) (s12 s3 : Int) (c p : String),
        is_flagged rows s12 s3 c p = true ↔
          (3 ≤ months_of_data (monthly_performance rows s12 c p)
           ∧ ∃ a12 a3 : ℚ,
               avg_win_rate (monthly_performance rows s12 c p) s12 = some a12
               ∧ avg_win_rate (monthly_performance rows s12 c p) s3 = some a3
               ∧ 0 < a12 ∧ 0 < a3
               ∧ 1000 < total_settled_12m (monthly_performance rows s12 c p)
               ∧ 20 ≤ (a12 - a3) / a12 * 100))
    ∧ (avg_win_rate (monthly_performance c6_rows 0 "X" "Doordash") 0 = some 60
        ∧ avg_win_rate (monthly_performance c6_rows 0 "X" "Doordash") 3 = some 40
        ∧ is_flagged c6_rows 0 3 "X" "Doordash" = true
        ∧ alert_label (100 * ((60 : ℚ) - 40) / 60) = "Critical") :=
  ⟨flagged_iff, c6_avg12, c6_avg3, c6_flag, c6_label⟩

/-! ## Claim C10: monthly averaging behaviour -/

theorem monthly_performance_pos (rows : List CsRow) (s12 : Int) (c p : String) :
    ∀ t ∈ monthly_performance rows s12 c p, 0 < t.2.2 := by
  intro t ht
  have h := (List.mem_filter.mp ht).2
  simpa using h

theorem monthly_performance_months (rows : List CsRow) (s12 : Int) (c p : String) :
    (monthly_performance rows s12 c p).map (fun t => t.1)
      = (((attention_rows rows s12 c p).map (fun r => r.month)).dedup).filter
          (fun m => decide (0 < month_settled rows s12 c p m)) := by
  unfold monthly_performance
  rw [List.filter_map, List.map_map]
  rw [show ((fun t : Int × ℚ × ℚ => t.1) ∘ fun m =>
      (m, month_won rows s12 c p m, month_settled rows s12 c p m)) = id from rfl]
  rw [List.map_id]
  rfl

theorem month_settled_zero_excluded (rows : List CsRow) (s12 : Int) (c p : String)
    (m : Int) (hm : month_settled rows s12 c p m = 0) :
    m ∉ (monthly_performance rows s12 c p).map (fun t => t.1) := by
  rw [monthly_performance_months]
  intro hmem
  have h := (List.mem_filter.mp hmem).2
  rw [decide_eq_true_eq, hm] at h
  exact absurd h (lt_irrefl 0)

theorem months_of_data_eq (rows : List CsRow) (s12 : Int) (c p : String) :
    months_of_data (monthly_performance rows s12 c p)
      = ((((attention_rows rows s12 c p).map (fun r => r.month)).dedup).filter
          (fun m => decide (0 < month_settled rows s12 c p m))).length := by
  unfold months_of_data
  rw [monthly_performance_months]
  rw [List.Nodup.dedup ((List.nodup_dedup _).filter _)]

theorem filterMap_month_rate (l : List (Int × ℚ × ℚ)) (cutoff : Int)
    (h : ∀ t ∈ l, t.2.2 ≠ 0) :
    (l.map (fun t => if cutoff ≤ t.1 then month_rate t else none)).filterMap id
      = (l.filter (fun t => decide (cutoff ≤ t.1))).map (fun t => 100 * t.2.1 / t.2.2) := by
  induction l with
  | nil => rfl
  | cons a l ih =>
    have ha : a.2.2 ≠ 0 := h a (List.mem_cons_self a l)
    have hma : month_rate a = some (100 * a.2.1 / a.2.2) := by
      unfold month_rate
      rw [if_neg ha]
    have ih2 := ih (fun t ht => h t (List.mem_cons_of_mem a ht))
    by_cases hc : cutoff ≤ a.1
    · rw [List.map_cons, if_pos hc, hma,
        show List.filterMap id (some (100 * a.2.1 / a.2.2)
              :: l.map (fun t => if cutoff ≤ t.1 then month_rate t else none))
          = (100 * a.2.1 / a.2.2)
              :: List.filterMap id (l.map (fun t => if cutoff ≤ t.1 then month_rate t else none))
          from rfl,
        ih2, List.filter_cons, if_pos (decide_eq_true hc), List.map_cons]
    · rw [List.map_cons, if_neg hc,
        show List.filterMap id ((none : Option ℚ)
              :: l.map (fun t => if cutoff ≤ t.1 then month_rate t else none))
          = List.filterMap id (l.map (fun t => if cutoff ≤ t.1 then month_rate t else none))
          from rfl,
        ih2, List.filter_cons, if_neg (by simpa using hc)]

theorem avg_win_rate_eq (perf : List (Int × ℚ × ℚ)) (cutoff : Int)
    (h0 : ∀ t ∈ perf, 0 < t.2.2)
    (hne : perf.filter (fun t => decide (cutoff ≤ t.1)) ≠ []) :
    avg_win_rate perf cutoff
      = some ((((perf.filter (fun t => decide (cutoff ≤ t.1))).map
            (fun t => 100 * t.2.1 / t.2.2)).sum)
          / (((perf.filter (fun t => decide (cutoff ≤ t.1))).length : ℚ))) := by
  have h := filterMap_month_rate perf cutoff (fun t ht => (h0 t ht).ne')
  unfold avg_win_rate avg_sql
  rw [h, List.length_map]
  rw [if_neg (fun hz => hne (List.length_eq_zero.mp hz))]

/-! Concrete two-month entity on which the mean of the per-month ratios (50)
differs from the ratio of the window sums (25): month 0 has won 0 of settled
300, month 1 has won 100 of settled 100. -/

def c10_rows : List CsRow :=
  [⟨"X", "Doordash", "s", "L", 0, "ACCEPTED", some "INACCURATE", some 0, some 300, true⟩,
   ⟨"X", "Doordash", "s", "L", 1, "ACCEPTED", some "INACCURATE", some 100, some 100, true⟩]

theorem c10_att : attention_rows c10_rows 0 "X" "Doordash" = c10_rows := by
  simp [attention_rows, c10_rows, like_inac_true]

theorem c10_won0 : month_won c10_rows 0 "X" "Doordash" 0 = 0 := by
  unfold month_won
  rw [c10_att]
  simp [c10_rows, coalesce0]

theorem c10_won1 : month_won c10_rows 0 "X" "Doordash" 1 = 100 := by
  unfold month_won
  rw [c10_att]
  simp [c10_rows, coalesce0]

theorem c10_set0 : month_settled c10_rows 0 "X" "Doordash" 0 = 300 := by
  unfold month_settled
  rw [c10_att]
  simp [c10_rows, settled_amount, status_acc, like_inac_true, coalesce0]

theorem c10_set1 : month_settled c10_rows 0 "X" "Doordash" 1 = 100 := by
  unfold month_settled
  rw [c10_att]
  simp [c10_rows, settled_amount, status_acc, like_inac_true, coalesce0]

theorem c10_months_list : (c10_rows.map (fun r => r.month)).dedup = [0, 1] := by
  simp [c10_rows]

theorem c10_perf : monthly_performance c10_rows 0 "X" "Doordash"
    = [(0, 0, 300), (1, 100, 100)] := by
  unfold monthly_performance
  rw [c10_att, c10_months_list]
  norm_num [c10_won0, c10_won1, c10_set0, c10_set1]

theorem c10_avg : avg_win_rate (monthly_performance c10_rows 0 "X" "Doordash") 0 = some 50 := by
  rw [c10_perf]
  norm_num [avg_win_rate, avg_sql, month_rate, List.filterMap_cons]

theorem c10_ratio_of_sums :
    100 * ((monthly_performance c10_rows 0 "X" "Doordash").map (fun t => t.2.1)).sum
      / total_settled_12m (monthly_performance c10_rows 0 "X" "Doordash") = 25 := by
  rw [c10_perf]
  norm_num [total_settled_12m]

/-- C10: `HAVING settled > 0` removes zero-settled months before any
averaging — every `monthly_performance` row has a positive settled amount, a
month whose settled sum is 0 appears in no row, and `months_of_data` counts
only the surviving months; each window average is the arithmetic mean of the
per-month ratios `100 * won / settled` over the surviving months of the
window.  It is not the ratio of window sums: on the concrete two-month entity
the mean of ratios is 50 while the ratio of summed won to summed settled
is 25. -/
theorem C10_monthly_averaging :
    (∀ (rows : List CsRow) (s12 : Int) (c p : String),
        (∀ t ∈ monthly_performance rows s12 c p, 0 < t.2.2)
        ∧ (∀ m : Int, month_settled rows s12 c p m = 0 →
             m ∉ (monthly_performance rows s12 c p).map (fun t => t.1))
        ∧ months_of_data (monthly_performance rows s12 c p)
            = ((((attention_rows rows s12 c p).map (fun r => r.month)).dedup).filter
                (fun m => decide (0 < month_settled rows s12 c p m))).length
        ∧ (∀ cutoff : Int,
             (monthly_performance rows s12 c p).filter (fun t => decide (cutoff ≤ t.1)) ≠ [] →
             avg_win_rate (monthly_performance rows s12 c p) cutoff
               = some ((((monthly_performance rows s12 c p).filter
                     (fun t => decide (cutoff ≤ t.1))).map (fun t => 100 * t.2.1 / t.2.2)).sum
                   / (((monthly_performance rows s12 c p).filter
                       (fun t => decide (cutoff ≤ t.1))).length : ℚ))))
    ∧ (avg_win_rate (monthly_performance c10_rows 0 "X" "Doordash") 0 = some 50
        ∧ 100 * ((monthly_performance c10_rows 0 "X" "Doordash").map (fun t => t.2.1)).sum
            / total_settled_12m (monthly_performance c10_rows 0 "X" "Doordash") = 25
        ∧ (50 : ℚ) ≠ 25) :=
  ⟨fun rows s12 c p =>
    ⟨monthly_performance_pos rows s12 c p,
     fun m hm => month_settled_zero_excluded rows s12 c p m hm,
     months_of_data_eq rows s12 c p,
     fun cutoff hne => avg_win_rate_eq _ cutoff (monthly_performance_pos rows s12 c p) hne⟩,
   c10_avg, c10_ratio_of_sums, by norm_num⟩

/-- Witness for `C10_monthly_averaging`: its mean-of-ratios characterization
applied to the concrete two-month entity with the non-emptiness hypothesis
discharged. -/
theorem C10_witness :
    avg_win_rate (monthly_performance c10_rows 0 "X" "Doordash") 0
      = some ((((monthly_performance c10_rows 0 "X" "Doordash").filter
            (fun t => decide ((0 : Int) ≤ t.1))).map (fun t => 100 * t.2.1 / t.2.2)).sum
          / (((monthly_performance c10_rows 0 "X" "Doordash").filter
              (fun t => decide ((0 : Int) ≤ t.1))).length : ℚ)) :=
  (C10_monthly_averaging.1 c10_rows 0 "X" "Doordash").2.2.2 0
    (by rw [c10_perf]; simp)
